import Mathlib

/-!
Shallow embedding of the routeguide service logic from
`tonic-examples/src/routeguide/server.rs`.

Modelling conventions:
- Proto scalar `int32` coordinates are `Int` (only compared, hashed and
  subtracted after conversion to floating point; no i32 wrap-around is
  reachable in the verified properties).
- Rust `Option<T>` fields become `Option`; a Rust `.unwrap()` on `None`
  (a panic) is modelled by propagating `none` (for expression-level code)
  or an explicit `panicked` outcome (for the chat session).
- `f64` arithmetic is idealised as real arithmetic (`ℝ`); the final
  `as i32` cast is the saturating truncation toward zero that Rust uses.
- Streams (`Stream<Item = Result<T, Status>>`) become `List (Except Status T)`;
  the server consumes items strictly in order, exactly as the `while let`
  loops in the source do.
- The `HashMap<Point, Vec<RouteNote>>` note hub becomes a total function
  `Point → List RouteNote` whose default value is `[]`, matching
  `entry(location).or_insert(vec![])`.
- Wall-clock elapsed time (`summary.elapsed_time`) is environment input and
  is left at its initial value; no verified property mentions it.
-/

/-- `routeguide.Point`: latitude/longitude in degrees × 10^7. -/
structure Point where
  latitude : Int
  longitude : Int
deriving DecidableEq, Repr

/-- `routeguide.Rectangle`: two optional corner points, as in the proto. -/
structure Rectangle where
  lo : Option Point
  hi : Option Point
deriving DecidableEq, Repr

/-- `routeguide.Feature`: a name and an optional location. -/
structure Feature where
  name : String
  location : Option Point
deriving DecidableEq, Repr

/-- `routeguide.RouteNote`: an optional location and a message. -/
structure RouteNote where
  location : Option Point
  message : String
deriving DecidableEq, Repr

/-- `routeguide.RouteSummary`: aggregate of a `record_route` session. -/
structure RouteSummary where
  point_count : Int
  feature_count : Int
  distance : Int
  elapsed_time : Int
deriving DecidableEq, Repr

/-- `tonic::Status`: opaque error value delivered on a stream. -/
structure Status where
  message : String
deriving DecidableEq, Repr

/-- `fn in_range(point: &Point, rect: &Rectangle) -> bool`.
`rect.lo.as_ref().unwrap()` / `rect.hi.as_ref().unwrap()` panic when a
corner is absent; the panic is modelled as `none`. -/
def in_range (point : Point) (rect : Rectangle) : Option Bool :=
  match rect.lo, rect.hi with
  | some lo, some hi =>
    let left := min lo.longitude hi.longitude
    let right := max lo.longitude hi.longitude
    let top := max lo.latitude hi.latitude
    let bottom := min lo.latitude hi.latitude
    some (decide (point.longitude ≥ left) && decide (point.longitude ≤ right) &&
      decide (point.latitude ≥ bottom) && decide (point.latitude ≤ top))
  | _, _ => none

/-- The sentinel returned by `get_feature` when no feature matches:
`Feature { name: "".to_string(), location: None }`. -/
def empty_feature : Feature := { name := "", location := none }

/-- `get_feature`: linear scan of the catalog, returning the first feature
whose location equals `Some(point)`, else the empty sentinel. The handler
always answers `Ok`, so the result type is plain `Feature`. -/
def get_feature : List Feature → Point → Feature
  | [], _ => empty_feature
  | f :: rest, p => if f.location = some p then f else get_feature rest p

/-- The sequence of features the `list_features` producer loop sends, under
the schedule in which the consumer keeps pace (so `try_send` always finds
room). `feature.location.as_ref().unwrap()` panics on a feature without a
location, and `in_range` panics on a rectangle with a missing corner; both
panics are modelled as `none`. -/
def list_features : List Feature → Rectangle → Option (List Feature)
  | [], _ => some []
  | f :: rest, rect =>
    match f.location with
    | none => none
    | some loc =>
      match in_range loc rect with
      | none => none
      | some b =>
        match list_features rest rect with
        | none => none
        | some tail => some (if b then f :: tail else tail)

/-- `mpsc::channel(4)` buffer bound used by `list_features`. -/
def channel_capacity : Nat := 4

/-- `tx.try_send(..)`: non-blocking send into the bounded channel buffer.
Returns `none` (a `TrySendError`, which the producer unwraps into a panic)
when the buffer already holds `channel_capacity` items. -/
def try_send (buf : List Feature) (f : Feature) : Option (List Feature) :=
  if buf.length < channel_capacity then some (buf ++ [f]) else none

/-- The `list_features` producer thread run under the schedule in which the
consumer consumes nothing while the producer runs (the "slow consumer" case):
`buf` is the channel buffer, and every `.unwrap()` panic — on a missing
feature location, a missing rectangle corner, or a failed `try_send` —
is modelled as `none`. On success it returns the final buffer contents. -/
def list_features_producer : List Feature → Rectangle → List Feature → Option (List Feature)
  | [], _, buf => some buf
  | f :: rest, rect, buf =>
    match f.location with
    | none => none
    | some loc =>
      match in_range loc rect with
      | none => none
      | some b =>
        if b then
          match try_send buf f with
          | none => none
          | some buf2 => list_features_producer rest rect buf2
        else
          list_features_producer rest rect buf

/-- The inner `for feature in features` loop of `record_route`: starting
from `acc`, add one for every catalog feature whose location equals
`Some(point)`. -/
def count_matching_features (features : List Feature) (point : Point) (acc : Int) : Int :=
  features.foldl (fun acc f => if f.location = some point then acc + 1 else acc) acc

/-- The `while let` loop of `record_route`, parameterised by the distance
function so that the count-only facts do not depend on real arithmetic.
An `Err` item is returned by `point?` and aborts the session with no
summary. -/
def record_route_loop (dist : Point → Point → Int) (features : List Feature)
    (summary : RouteSummary) (last_point : Option Point) :
    List (Except Status Point) → Except Status RouteSummary
  | [] => Except.ok summary
  | Except.error s :: _ => Except.error s
  | Except.ok point :: rest =>
    let s1 : RouteSummary := { summary with point_count := summary.point_count + 1 }
    let s2 : RouteSummary :=
      { s1 with feature_count := count_matching_features features point s1.feature_count }
    let s3 : RouteSummary :=
      match last_point with
      | some lp => { s2 with distance := s2.distance + dist lp point }
      | none => s2
    record_route_loop dist features s3 (some point) rest

/-- Outcome of a `route_chat` session, as seen on the outbound side:
the inbound stream closed cleanly, an inbound `Err` was surfaced through
the error channel of the outbound stream, or the session panicked on
`note.location.clone().unwrap()`. -/
inductive ChatResult where
  | closed
  | errored (s : Status)
  | panicked
deriving DecidableEq, Repr

/-- The `route_chat` session loop over the inbound items. Returns the
outbound notes (in emission order), how the session ended, and the final
note-hub state. For each inbound note the session appends the note to the
list keyed by its location (`entry(location).or_insert(vec![])` then
`push`) and yields every note of the updated list before taking the next
inbound item. -/
def route_chat_run : (Point → List RouteNote) → List (Except Status RouteNote) →
    List RouteNote × ChatResult × (Point → List RouteNote)
  | notes, [] => ([], ChatResult.closed, notes)
  | notes, Except.error s :: _ => ([], ChatResult.errored s, notes)
  | notes, Except.ok note :: rest =>
    match note.location with
    | none => ([], ChatResult.panicked, notes)
    | some loc =>
      let updated := notes loc ++ [note]
      let next := route_chat_run (fun p => if p = loc then updated else notes p) rest
      (updated ++ next.1, next.2)

/-- `f64::to_radians`: degrees × π / 180. -/
noncomputable def to_radians (x : ℝ) : ℝ := x * Real.pi / 180

/-- `f64::atan2(y, x)` with the usual quadrant case split (the verified
property only exercises the `0 < x` branch). -/
noncomputable def atan2 (y x : ℝ) : ℝ :=
  if 0 < x then Real.arctan (y / x)
  else if x < 0 then
    if 0 ≤ y then Real.arctan (y / x) + Real.pi else Real.arctan (y / x) - Real.pi
  else if 0 < y then Real.pi / 2
  else if y < 0 then -(Real.pi / 2)
  else 0

/-- The haversine computation of `calc_distance`, before the `as i32` cast,
with `f64` arithmetic idealised as real arithmetic. `CORD_FACTOR = 1e7`,
`R = 6371000.0`. -/
noncomputable def calc_distance_real (p1 p2 : Point) : ℝ :=
  let cord_factor : ℝ := 10000000
  let r : ℝ := 6371000
  let lat1 := (p1.latitude : ℝ) / cord_factor
  let lat2 := (p2.latitude : ℝ) / cord_factor
  let lng1 := (p1.longitude : ℝ) / cord_factor
  let lng2 := (p2.longitude : ℝ) / cord_factor
  let lat_rad1 := to_radians lat1
  let lat_rad2 := to_radians lat2
  let delta_lat := to_radians (lat2 - lat1)
  let delta_lng := to_radians (lng2 - lng1)
  let a := Real.sin (delta_lat / 2) * Real.sin (delta_lat / 2) +
    Real.cos lat_rad1 * Real.cos lat_rad2 *
      Real.sin (delta_lng / 2) * Real.sin (delta_lng / 2)
  let c := 2 * atan2 (Real.sqrt a) (Real.sqrt (1 - a))
  r * c

/-- Rust's `f64 as i32` cast: truncation toward zero, saturating at the
i32 bounds. -/
noncomputable def f64_as_i32 (x : ℝ) : Int :=
  max (-(2 ^ 31)) (min (2 ^ 31 - 1) (if 0 ≤ x then ⌊x⌋ else ⌈x⌉))

/-- `fn calc_distance(p1: &Point, p2: &Point) -> i32`. -/
noncomputable def calc_distance (p1 p2 : Point) : Int :=
  f64_as_i32 (calc_distance_real p1 p2)

/-- `record_route` over a completed inbound stream: the loop above with the
summary fields starting from `RouteSummary::default()` and the real
distance function. -/
noncomputable def record_route (features : List Feature)
    (items : List (Except Status Point)) : Except Status RouteSummary :=
  record_route_loop calc_distance features
    { point_count := 0, feature_count := 0, distance := 0, elapsed_time := 0 } none items

/-- Claim C7: the bounding-box containment test gives the same result when
`rect.lo` and `rect.hi` are swapped, for every rectangle (with or without
corners) and every point. -/
theorem claim_C7_in_range_swap (rect : Rectangle) (p : Point) :
    in_range p rect = in_range p { lo := rect.hi, hi := rect.lo } := by
  obtain ⟨lo, hi⟩ := rect
  cases lo <;> cases hi <;> simp [in_range, min_comm, max_comm]

/-- Claim C10: `in_range` is only defined when both corners of the
rectangle are present; a missing `lo` or `hi` corner makes the
`.unwrap()` panic (modelled as `none`) instead of defaulting the corner. -/
theorem claim_C10_missing_corner_panics (p : Point) (rect : Rectangle)
    (h : rect.lo = none ∨ rect.hi = none) : in_range p rect = none := by
  obtain ⟨lo, hi⟩ := rect
  rcases h with h | h
  · cases h; cases hi <;> rfl
  · cases h; cases lo <;> rfl

/-- Witness for C10 at a concrete rectangle with an absent `lo` corner. -/
theorem claim_C10_witness :
    (({ lo := none, hi := some { latitude := 1, longitude := 1 } } : Rectangle).lo = none ∨
      ({ lo := none, hi := some { latitude := 1, longitude := 1 } } : Rectangle).hi = none) ∧
    in_range { latitude := 0, longitude := 0 }
      { lo := none, hi := some { latitude := 1, longitude := 1 } } = none :=
  ⟨Or.inl rfl, claim_C10_missing_corner_panics _ _ (Or.inl rfl)⟩

/-- Claim C2: `get_feature` returns the first feature in catalog order whose
location structurally equals the query point, and the empty-feature sentinel
(empty name, no location) when there is no match; the handler always answers
`Ok`, so the not-found case is a value, not an error. -/
theorem claim_C2_get_feature_first_match (features : List Feature) (p : Point) :
    get_feature features p =
      (features.find? fun f => decide (f.location = some p)).getD empty_feature := by
  induction features with
  | nil => rfl
  | cons f rest ih =>
    by_cases h : f.location = some p <;>
      simp [get_feature, List.find?_cons, h, ih]

/-- Claim C3 fails on the code: a catalog feature with no location makes
`list_features` panic on `feature.location.as_ref().unwrap()` (modelled as
`none`) instead of being skipped. -/
theorem claim_C3_counterexample :
    list_features [{ name := "X", location := none }]
      { lo := some { latitude := 0, longitude := 0 },
        hi := some { latitude := 10, longitude := 10 } } = none := rfl

/-- `in_range` always produces a value when both corners are present. -/
theorem in_range_isSome_of_corners (p : Point) (rect : Rectangle)
    (hlo : rect.lo.isSome) (hhi : rect.hi.isSome) : (in_range p rect).isSome := by
  obtain ⟨lo, hi⟩ := rect
  cases lo <;> cases hi <;> simp_all [in_range]

/-- Claim C3, amended: when every catalog feature has a location and both
rectangle corners are present, the scan emits exactly the features whose
location lies in the normalized bounding box, preserving catalog order; but
a feature without a location panics the scan rather than being skipped. -/
theorem claim_C3_amended (features : List Feature) (rect : Rectangle)
    (hloc : ∀ f ∈ features, f.location.isSome)
    (hlo : rect.lo.isSome) (hhi : rect.hi.isSome) :
    list_features features rect =
      some (features.filter fun f =>
        (f.location.bind fun loc => in_range loc rect).getD false) := by
  induction features with
  | nil => rfl
  | cons f rest ih =>
    obtain ⟨loc, hfl⟩ := Option.isSome_iff_exists.mp (hloc f (List.mem_cons_self f rest))
    have hir := in_range_isSome_of_corners loc rect hlo hhi
    obtain ⟨b, hb⟩ := Option.isSome_iff_exists.mp hir
    have ihr := ih (fun g hg => hloc g (List.mem_cons_of_mem f hg))
    cases b <;>
      simp [list_features, List.filter_cons, hfl, hb, ihr]

/-- Witness for the amended C3 at the spec's range-scan scenario: features
at (10,10), (20,20), (30,30) and rectangle (5,5)–(25,25). -/
theorem claim_C3_witness :
    (∀ f ∈ [({ name := "A", location := some { latitude := 10, longitude := 10 } } : Feature),
            { name := "B", location := some { latitude := 20, longitude := 20 } },
            { name := "C", location := some { latitude := 30, longitude := 30 } }],
        f.location.isSome) ∧
    (({ lo := some { latitude := 5, longitude := 5 },
        hi := some { latitude := 25, longitude := 25 } } : Rectangle)).lo.isSome ∧
    (({ lo := some { latitude := 5, longitude := 5 },
        hi := some { latitude := 25, longitude := 25 } } : Rectangle)).hi.isSome ∧
    list_features
      [{ name := "A", location := some { latitude := 10, longitude := 10 } },
       { name := "B", location := some { latitude := 20, longitude := 20 } },
       { name := "C", location := some { latitude := 30, longitude := 30 } }]
      { lo := some { latitude := 5, longitude := 5 },
        hi := some { latitude := 25, longitude := 25 } } =
      some ([{ name := "A", location := some { latitude := 10, longitude := 10 } },
             { name := "B", location := some { latitude := 20, longitude := 20 } },
             { name := "C", location := some { latitude := 30, longitude := 30 } }].filter
        fun f => (f.location.bind fun loc =>
          in_range loc { lo := some { latitude := 5, longitude := 5 },
                         hi := some { latitude := 25, longitude := 25 } }).getD false) :=
  ⟨by decide, by decide, by decide,
    claim_C3_amended _ _ (by decide) (by decide) (by decide)⟩

/-- Claim C9 fails on the code: with five in-range features and a consumer
that has not yet drained the channel, the producer's fifth
`tx.try_send(..).unwrap()` finds the 4-slot buffer full and panics
(modelled as `none`) instead of blocking; the features are not delivered. -/
theorem claim_C9_counterexample :
    list_features
      [{ name := "1", location := some { latitude := 1, longitude := 1 } },
       { name := "2", location := some { latitude := 2, longitude := 2 } },
       { name := "3", location := some { latitude := 3, longitude := 3 } },
       { name := "4", location := some { latitude := 4, longitude := 4 } },
       { name := "5", location := some { latitude := 5, longitude := 5 } }]
      { lo := some { latitude := 0, longitude := 0 },
        hi := some { latitude := 10, longitude := 10 } } =
      some [{ name := "1", location := some { latitude := 1, longitude := 1 } },
            { name := "2", location := some { latitude := 2, longitude := 2 } },
            { name := "3", location := some { latitude := 3, longitude := 3 } },
            { name := "4", location := some { latitude := 4, longitude := 4 } },
            { name := "5", location := some { latitude := 5, longitude := 5 } }] ∧
    list_features_producer
      [{ name := "1", location := some { latitude := 1, longitude := 1 } },
       { name := "2", location := some { latitude := 2, longitude := 2 } },
       { name := "3", location := some { latitude := 3, longitude := 3 } },
       { name := "4", location := some { latitude := 4, longitude := 4 } },
       { name := "5", location := some { latitude := 5, longitude := 5 } }]
      { lo := some { latitude := 0, longitude := 0 },
        hi := some { latitude := 10, longitude := 10 } } [] = none :=
  ⟨rfl, rfl⟩

/-- With an idle consumer, the producer succeeds exactly while the buffer
has room for every remaining in-range feature, and then the buffer holds
the previously buffered items followed by the in-range features in catalog
order. -/
theorem list_features_producer_fills (features : List Feature) :
    ∀ (rect : Rectangle) (buf sent : List Feature),
      list_features features rect = some sent →
      buf.length + sent.length ≤ channel_capacity →
      list_features_producer features rect buf = some (buf ++ sent) := by
  induction features with
  | nil =>
    intro rect buf sent hscan hlen
    obtain rfl : sent = [] := by simpa [list_features] using hscan.symm
    simp [list_features_producer]
  | cons f rest ih =>
    intro rect buf sent hscan hlen
    rcases hfl : f.location with _ | loc
    · simp [list_features, hfl] at hscan
    rcases hir : in_range loc rect with _ | b
    · simp [list_features, hfl, hir] at hscan
    rcases hrest : list_features rest rect with _ | tail
    · simp [list_features, hfl, hir, hrest] at hscan
    have hsent : sent = if b then f :: tail else tail := by
      have := hscan
      simp [list_features, hfl, hir, hrest] at this
      exact this.symm
    cases b with
    | true =>
      subst hsent
      have hroom : buf.length < channel_capacity := by
        simp at hlen; omega
      have hts : try_send buf f = some (buf ++ [f]) := by
        simp [try_send, hroom]
      have := ih rect (buf ++ [f]) tail hrest (by simp at hlen ⊢; omega)
      simp [list_features_producer, hfl, hir, hts, this]
    | false =>
      subst hsent
      have := ih rect buf sent hrest (by simpa using hlen)
      simp [list_features_producer, hfl, hir, this]

/-- With an idle consumer, once the buffered and remaining in-range
features together exceed the capacity, the producer panics. -/
theorem list_features_producer_overflows (features : List Feature) :
    ∀ (rect : Rectangle) (buf sent : List Feature),
      list_features features rect = some sent →
      buf.length ≤ channel_capacity →
      channel_capacity < buf.length + sent.length →
      list_features_producer features rect buf = none := by
  induction features with
  | nil =>
    intro rect buf sent hscan hbuf hlen
    obtain rfl : sent = [] := by simpa [list_features] using hscan.symm
    simp at hlen; omega
  | cons f rest ih =>
    intro rect buf sent hscan hbuf hlen
    rcases hfl : f.location with _ | loc
    · simp [list_features, hfl] at hscan
    rcases hir : in_range loc rect with _ | b
    · simp [list_features, hfl, hir] at hscan
    rcases hrest : list_features rest rect with _ | tail
    · simp [list_features, hfl, hir, hrest] at hscan
    have hsent : sent = if b then f :: tail else tail := by
      have := hscan
      simp [list_features, hfl, hir, hrest] at this
      exact this.symm
    cases b with
    | true =>
      subst hsent
      by_cases hroom : buf.length < channel_capacity
      · have hts : try_send buf f = some (buf ++ [f]) := by
          simp [try_send, hroom]
        have := ih rect (buf ++ [f]) tail hrest (by simp; omega)
          (by simp at hlen ⊢; omega)
        simp [list_features_producer, hfl, hir, hts, this]
      · have hts : try_send buf f = none := by
          simp [try_send, hroom]
        simp [list_features_producer, hfl, hir, hts]
    | false =>
      subst hsent
      have := ih rect buf sent hrest hbuf (by simpa using hlen)
      simp [list_features_producer, hfl, hir, this]

/-- Claim C9, amended: the producer writes each matching feature with a
non-blocking `try_send` whose error is unwrapped, so with a consumer that
has not yet drained anything it delivers every in-range feature (in catalog
order) exactly when at most `channel_capacity = 4` features are in range,
and it panics — rather than blocking — as soon as a fifth in-range feature
meets the full buffer. -/
theorem claim_C9_amended (features : List Feature) (rect : Rectangle)
    (sent : List Feature) (h : list_features features rect = some sent) :
    (sent.length ≤ channel_capacity →
      list_features_producer features rect [] = some sent) ∧
    (channel_capacity < sent.length →
      list_features_producer features rect [] = none) := by
  constructor
  · intro hlen
    simpa using list_features_producer_fills features rect [] sent h (by simpa using hlen)
  · intro hlen
    exact list_features_producer_overflows features rect [] sent h (by simp [channel_capacity])
      (by simpa using hlen)

/-- Witness for the amended C9: two in-range features are fully delivered. -/
theorem claim_C9_witness :
    list_features
      [{ name := "1", location := some { latitude := 1, longitude := 1 } },
       { name := "2", location := some { latitude := 2, longitude := 2 } }]
      { lo := some { latitude := 0, longitude := 0 },
        hi := some { latitude := 10, longitude := 10 } } =
      some [{ name := "1", location := some { latitude := 1, longitude := 1 } },
            { name := "2", location := some { latitude := 2, longitude := 2 } }] ∧
    list_features_producer
      [{ name := "1", location := some { latitude := 1, longitude := 1 } },
       { name := "2", location := some { latitude := 2, longitude := 2 } }]
      { lo := some { latitude := 0, longitude := 0 },
        hi := some { latitude := 10, longitude := 10 } } [] =
      some [{ name := "1", location := some { latitude := 1, longitude := 1 } },
            { name := "2", location := some { latitude := 2, longitude := 2 } }] :=
  ⟨rfl,
    (claim_C9_amended
      [{ name := "1", location := some { latitude := 1, longitude := 1 } },
       { name := "2", location := some { latitude := 2, longitude := 2 } }]
      { lo := some { latitude := 0, longitude := 0 },
        hi := some { latitude := 10, longitude := 10 } }
      [{ name := "1", location := some { latitude := 1, longitude := 1 } },
       { name := "2", location := some { latitude := 2, longitude := 2 } }]
      (by decide)).1 (by decide)⟩

/-- Claim C1: on an inbound note with location `loc`, the chat session
appends the note to the list keyed by `loc` (the hub map defaults to `[]`,
so an absent key starts a fresh list), emits the whole updated list — old
notes in insertion order, the just-appended note last — before any output
of the remaining inbound items, and the hub afterwards holds exactly that
updated list at `loc` (a one-note session shows the per-step state). -/
theorem claim_C1_route_chat_replay (notes : Point → List RouteNote)
    (note : RouteNote) (loc : Point) (rest : List (Except Status RouteNote))
    (h : note.location = some loc) :
    (route_chat_run notes (Except.ok note :: rest)).1 =
      (notes loc ++ [note]) ++
        (route_chat_run
          (fun p => if p = loc then notes loc ++ [note] else notes p) rest).1 ∧
    (notes loc ++ [note]).getLast? = some note ∧
    (route_chat_run notes [Except.ok note]).2.2 loc = notes loc ++ [note] := by
  refine ⟨by simp [route_chat_run, h], ?_, by simp [route_chat_run, h]⟩
  simp [List.getLast?_append]

/-- Witness for C1: a fresh hub, one note N1 at (5,5), then a second note
session step would replay it; here the emission and final state are checked
at the concrete input. -/
theorem claim_C1_witness :
    ({ location := some { latitude := 5, longitude := 5 }, message := "N1" } : RouteNote).location =
      some { latitude := 5, longitude := 5 } ∧
    ((route_chat_run (fun _ => [])
        [Except.ok { location := some { latitude := 5, longitude := 5 }, message := "N1" }]).1 =
      [{ location := some { latitude := 5, longitude := 5 }, message := "N1" }] ∧
    ([({ location := some { latitude := 5, longitude := 5 }, message := "N1" } : RouteNote)]).getLast? =
      some { location := some { latitude := 5, longitude := 5 }, message := "N1" } ∧
    (route_chat_run (fun _ => [])
        [Except.ok { location := some { latitude := 5, longitude := 5 }, message := "N1" }]).2.2
        { latitude := 5, longitude := 5 } =
      [{ location := some { latitude := 5, longitude := 5 }, message := "N1" }]) :=
  ⟨rfl, claim_C1_route_chat_replay (fun _ => [])
    { location := some { latitude := 5, longitude := 5 }, message := "N1" }
    { latitude := 5, longitude := 5 } [] rfl⟩

/-- Claim C4 fails on the code: an inbound note with a missing location hits
`note.location.clone().unwrap()` and panics the session; no `Status` is
produced on the call's error channel and nothing is emitted. -/
theorem claim_C4_counterexample :
    (route_chat_run (fun _ => [])
        [Except.ok { location := none, message := "hi" }]).2.1 = ChatResult.panicked ∧
    (route_chat_run (fun _ => [])
        [Except.ok { location := none, message := "hi" }]).1 = [] :=
  ⟨rfl, rfl⟩

/-- Claim C4, amended: an inbound RouteNote with a missing location is
terminal for the session, but via an `unwrap` panic — the session emits no
further output and ends in the panicked state rather than surfacing a
`Status` on the call's error channel (which is reserved for inbound stream
errors). -/
theorem claim_C4_amended (notes : Point → List RouteNote) (note : RouteNote)
    (rest : List (Except Status RouteNote)) (h : note.location = none) :
    (route_chat_run notes (Except.ok note :: rest)).1 = [] ∧
    (route_chat_run notes (Except.ok note :: rest)).2.1 = ChatResult.panicked := by
  simp [route_chat_run, h]

/-- Witness for the amended C4 at a concrete location-less note. -/
theorem claim_C4_witness :
    ({ location := none, message := "m" } : RouteNote).location = none ∧
    (route_chat_run (fun _ => [])
        (Except.ok { location := none, message := "m" } ::
          [Except.ok { location := some { latitude := 1, longitude := 1 }, message := "n" }])).1 =
      [] ∧
    (route_chat_run (fun _ => [])
        (Except.ok { location := none, message := "m" } ::
          [Except.ok { location := some { latitude := 1, longitude := 1 }, message := "n" }])).2.1 =
      ChatResult.panicked :=
  ⟨rfl,
    (claim_C4_amended (fun _ => []) { location := none, message := "m" }
      [Except.ok { location := some { latitude := 1, longitude := 1 }, message := "n" }] rfl).1,
    (claim_C4_amended (fun _ => []) { location := none, message := "m" }
      [Except.ok { location := some { latitude := 1, longitude := 1 }, message := "n" }] rfl).2⟩

/-- The inner catalog loop adds exactly the number of features whose
location equals the point. -/
theorem count_matching_features_eq (point : Point) (features : List Feature) :
    ∀ acc : Int, count_matching_features features point acc =
      acc + ((features.countP fun f => decide (f.location = some point)) : Int) := by
  induction features with
  | nil => intro acc; simp [count_matching_features]
  | cons f rest ih =>
    intro acc
    have step : count_matching_features (f :: rest) point acc =
        count_matching_features rest point (if f.location = some point then acc + 1 else acc) :=
      rfl
    rw [step, ih]
    by_cases h : f.location = some point
    · simp [List.countP_cons, h]
      ring
    · simp [List.countP_cons, h]

/-- Invariants of the `record_route` loop on a successful run: the final
point count grows by the number of inbound items, and the final feature
count grows by the per-point catalog-match counts, summed over the points. -/
theorem record_route_loop_ok (dist : Point → Point → Int) (features : List Feature) :
    ∀ (items : List (Except Status Point)) (summary : RouteSummary)
      (last_point : Option Point) (s : RouteSummary),
      record_route_loop dist features summary last_point items = Except.ok s →
      s.point_count = summary.point_count + items.length ∧
      s.feature_count = summary.feature_count +
        ((items.filterMap Except.toOption).map
          (fun p => ((features.countP fun f => decide (f.location = some p)) : Int))).sum := by
  intro items
  induction items with
  | nil =>
    intro summary last_point s h
    cases h
    simp
  | cons item rest ih =>
    intro summary last_point s h
    cases item with
    | error st => simp [record_route_loop] at h
    | ok point =>
      cases last_point with
      | none =>
        simp only [record_route_loop] at h
        obtain ⟨hpc, hfc⟩ := ih _ _ _ h
        constructor
        · simp only [List.length_cons] at *
          rw [hpc]; push_cast; ring
        · simp [count_matching_features_eq] at hfc
          simp [Except.toOption, hfc]
          ring
      | some lp =>
        simp only [record_route_loop] at h
        obtain ⟨hpc, hfc⟩ := ih _ _ _ h
        constructor
        · simp only [List.length_cons] at *
          rw [hpc]; push_cast; ring
        · simp [count_matching_features_eq] at hfc
          simp [Except.toOption, hfc]
          ring

/-- Claim C6: whenever `record_route` emits a summary (the inbound stream
ended without an error item), `point_count` equals the number of inbound
points; an error aborts the session with no summary at all, so every
emitted summary counts the full inbound stream. -/
theorem claim_C6_point_count (features : List Feature)
    (items : List (Except Status Point)) (s : RouteSummary)
    (h : record_route features items = Except.ok s) :
    s.point_count = items.length := by
  have := (record_route_loop_ok calc_distance features items
    { point_count := 0, feature_count := 0, distance := 0, elapsed_time := 0 } none s h).1
  simpa using this

/-- Witness for C6: one inbound point against an empty catalog. -/
theorem claim_C6_witness :
    record_route [] [Except.ok { latitude := 0, longitude := 0 }] =
      Except.ok { point_count := 1, feature_count := 0, distance := 0, elapsed_time := 0 } ∧
    ({ point_count := 1, feature_count := 0, distance := 0, elapsed_time := 0 } :
        RouteSummary).point_count =
      (([Except.ok { latitude := 0, longitude := 0 }] : List (Except Status Point)).length : Int) :=
  ⟨rfl, claim_C6_point_count [] [Except.ok { latitude := 0, longitude := 0 }] _ rfl⟩

/-- Claim C5 fails on the code: with two cataloged features at the same
location (0,0) and a single inbound point (0,0), the loop increments the
feature count once per matching feature, yielding `feature_count = 2`,
while the number of inbound points matching some cataloged feature is 1. -/
theorem claim_C5_counterexample :
    record_route
      [{ name := "A", location := some { latitude := 0, longitude := 0 } },
       { name := "B", location := some { latitude := 0, longitude := 0 } }]
      [Except.ok { latitude := 0, longitude := 0 }] =
      Except.ok { point_count := 1, feature_count := 2, distance := 0, elapsed_time := 0 } ∧
    (([Except.ok { latitude := 0, longitude := 0 }] :
        List (Except Status Point)).filterMap Except.toOption).countP
      (fun p => decide (∃ f ∈
        [({ name := "A", location := some { latitude := 0, longitude := 0 } } : Feature),
         { name := "B", location := some { latitude := 0, longitude := 0 } }],
        f.location = some p)) = 1 ∧
    (2 : Int) ≠ 1 :=
  ⟨rfl, by decide, by decide⟩

/-- Claim C5, amended: the emitted `feature_count` equals the sum over the
inbound points of the number of cataloged features whose location equals
that point (one increment per matching feature, not per matching point);
the two notions agree only when no inbound point matches more than one
feature. -/
theorem claim_C5_amended (features : List Feature)
    (items : List (Except Status Point)) (s : RouteSummary)
    (h : record_route features items = Except.ok s) :
    s.feature_count =
      ((items.filterMap Except.toOption).map
        (fun p => ((features.countP fun f => decide (f.location = some p)) : Int))).sum := by
  have := (record_route_loop_ok calc_distance features items
    { point_count := 0, feature_count := 0, distance := 0, elapsed_time := 0 } none s h).2
  simpa using this

/-- Witness for the amended C5 at the duplicate-location catalog. -/
theorem claim_C5_witness :
    record_route
      [{ name := "A", location := some { latitude := 0, longitude := 0 } },
       { name := "B", location := some { latitude := 0, longitude := 0 } }]
      [Except.ok { latitude := 0, longitude := 0 }] =
      Except.ok { point_count := 1, feature_count := 2, distance := 0, elapsed_time := 0 } ∧
    ({ point_count := 1, feature_count := 2, distance := 0, elapsed_time := 0 } :
        RouteSummary).feature_count =
      ((([Except.ok { latitude := 0, longitude := 0 }] :
          List (Except Status Point)).filterMap Except.toOption).map
        (fun p =>
          (([({ name := "A", location := some { latitude := 0, longitude := 0 } } : Feature),
             { name := "B", location := some { latitude := 0, longitude := 0 } }].countP
            fun f => decide (f.location = some p)) : Int))).sum :=
  ⟨rfl,
    claim_C5_amended
      [{ name := "A", location := some { latitude := 0, longitude := 0 } },
       { name := "B", location := some { latitude := 0, longitude := 0 } }]
      [Except.ok { latitude := 0, longitude := 0 }] _ rfl⟩

/-- Claim C8: the haversine distance of a point to itself is zero, already
as the exact real-valued result, hence also after the truncating `as i32`
cast. -/
theorem claim_C8_distance_self_zero (p : Point) : calc_distance p p = 0 := by
  have hreal : calc_distance_real p p = 0 := by
    unfold calc_distance_real to_radians atan2
    norm_num
  unfold calc_distance f64_as_i32
  rw [hreal]
  norm_num
